import Mathlib

/-!
Shallow embedding of the Huggingface_Client repository's core logic:
the retry policy in `src/hf_backend/retry.py`, the background worker in
`src/ui/workers.py`, and the thin API-wrapper functions in
`src/hf_backend/hf_auth.py`, `src/hf_backend/hf_collections.py`,
`src/hf_backend/hf_files.py`, `src/hf_backend/hf_repos.py` and
`src/hf_backend/hf_model_card.py`.

Python exceptions are modelled by an inductive type `Exc`; a fallible
remote call is modelled as an oracle `Nat → Res α` giving the outcome of
its k-th invocation; `with_retry` is embedded as a function returning the
full observable trace of a run (number of invocations of the wrapped
operation, the list of sleep durations in order, and the final outcome).
Python floats (the `delay` argument) are modelled by rationals, and the
Python `int` argument `retries` by `Int` (it may be non-positive).
-/

namespace HFClient

/-- Model of the exception classes relevant to `retry.py`:
the four httpx transport errors in `_TRANSPORT_ERRORS`, `HfHubHTTPError`
(whose `response` attribute may be absent, and otherwise carries a status
code), and any other application exception (`appExc`).  The `tag` field
distinguishes different exception objects of the same class. -/
inductive Exc where
  | connectError (tag : Nat)
  | timeoutException (tag : Nat)
  | networkError (tag : Nat)
  | protocolError (tag : Nat)
  | hfHubHTTPError (tag : Nat) (statusCode : Option Nat)
  | appExc (tag : Nat) (msg : String)
deriving DecidableEq

/-- Model of Python `str(e)` for our exceptions. -/
def excStr : Exc → String
  | Exc.connectError t => "ConnectError " ++ toString t
  | Exc.timeoutException t => "TimeoutException " ++ toString t
  | Exc.networkError t => "NetworkError " ++ toString t
  | Exc.protocolError t => "ProtocolError " ++ toString t
  | Exc.hfHubHTTPError t none => "HfHubHTTPError " ++ toString t ++ " no-response"
  | Exc.hfHubHTTPError t (some c) => "HfHubHTTPError " ++ toString t ++ " status " ++ toString c
  | Exc.appExc _ m => m

/-- Outcome of a single invocation of a fallible operation:
it returns a value or raises an exception. -/
inductive Res (α : Type) where
  | ok (v : α)
  | err (e : Exc)
deriving DecidableEq

/-- `isinstance(err, _TRANSPORT_ERRORS)` from `retry.py`. -/
def isTransportError : Exc → Bool
  | Exc.connectError _ => true
  | Exc.timeoutException _ => true
  | Exc.networkError _ => true
  | Exc.protocolError _ => true
  | _ => false

/-- Embedding of `_is_retryable` (`retry.py` lines 14-21): transport errors
are retryable; an `HfHubHTTPError` is retryable iff it has a response whose
status code is at least 500; everything else is not. -/
def _is_retryable (e : Exc) : Bool :=
  if isTransportError e then true
  else
    match e with
    | Exc.hfHubHTTPError _ (some code) => decide (500 ≤ code)
    | _ => false

/-- Whether the `except (HfHubHTTPError, *_TRANSPORT_ERRORS)` clause of
`with_retry` catches the exception. -/
def isCaught (e : Exc) : Bool :=
  isTransportError e ||
    (match e with
     | Exc.hfHubHTTPError _ _ => true
     | _ => false)

/-- Final outcome of a `with_retry` run: a returned value, a raised
exception, or the `TypeError` produced by `raise last_err` when
`last_err` is still `None` (loop body never ran). -/
inductive Outcome (α : Type) where
  | ok (v : α)
  | raised (e : Exc)
  | raiseNoneTypeError
deriving DecidableEq

/-- The outcome of the trailing `raise last_err` statement of `with_retry`. -/
def exhaustOutcome {α : Type} : Option Exc → Outcome α
  | some e => Outcome.raised e
  | none => Outcome.raiseNoneTypeError

/-- Observable trace of one `with_retry` run: how many times the wrapped
operation was invoked, the sleep durations passed to `time.sleep` in
order, and the final outcome. -/
structure RunResult (α : Type) where
  calls : Nat
  sleeps : List ℚ
  outcome : Outcome α
deriving DecidableEq

/-- The `for attempt in range(retries)` loop of `with_retry`
(`retry.py` lines 26-37), by recursion on the number of remaining loop
iterations.  `attempt` is the current value of the loop variable and
`lastErr` the current value of `last_err`.  On loop exhaustion the
trailing `raise last_err` executes.  An exception not matched by the
`except` clause, or matched but not retryable (re-raised by the bare
`raise`), propagates at once; a retryable one is recorded in `last_err`
and, when `attempt < retries - 1`, is preceded by a sleep of
`delay * (attempt + 1)` before the next iteration. -/
def retryLoop {α : Type} (fn : Nat → Res α) (retriesN : Nat) (delay : ℚ) :
    Nat → Nat → Option Exc → RunResult α
  | 0, _, lastErr => ⟨0, [], exhaustOutcome lastErr⟩
  | remaining + 1, attempt, _lastErr =>
      match fn attempt with
      | Res.ok v => ⟨1, [], Outcome.ok v⟩
      | Res.err e =>
          if isCaught e then
            if _is_retryable e then
              let rest := retryLoop fn retriesN delay remaining (attempt + 1) (some e)
              if attempt < retriesN - 1 then
                ⟨rest.calls + 1, delay * ((attempt : ℚ) + 1) :: rest.sleeps, rest.outcome⟩
              else
                ⟨rest.calls + 1, rest.sleeps, rest.outcome⟩
            else ⟨1, [], Outcome.raised e⟩
          else ⟨1, [], Outcome.raised e⟩

/-- Embedding of `with_retry(fn, retries=…, delay=…)` (`retry.py` lines
24-39).  `retries` is a Python `int`, so it is modelled as `Int`;
`range(retries)` is empty for non-positive `retries`. -/
def with_retry {α : Type} (fn : Nat → Res α) (retries : Int) (delay : ℚ) : RunResult α :=
  retryLoop fn retries.toNat delay retries.toNat 0 none

/-- Signals emitted by `ApiWorker` (`ui/workers.py`): `finished` carries
the operation's return value, `error` carries `str(e)`. -/
inductive WSignal (α : Type) where
  | finished (v : α)
  | error (msg : String)
deriving DecidableEq

/-- Embedding of `ApiWorker.run` (`ui/workers.py` lines 20-28): `r` is the
outcome of `self._fn(*self._args, **self._kwargs)` and `cancelled` the
value of `self._cancelled` at the moment `run` checks it (it is set by
`cancel()`).  The result is the list of outcome signals emitted, in
order.  The bare `except Exception` clause catches every exception the
operation raises, so `run` never re-raises and only ever emits signals. -/
def ApiWorker.run {α : Type} (r : Res α) (cancelled : Bool) : List (WSignal α) :=
  match r with
  | Res.ok v => if cancelled then [] else [WSignal.finished v]
  | Res.err e => if cancelled then [] else [WSignal.error (excStr e)]

/-- The domain-specific exception classes raised by the backend wrapper
modules. -/
inductive DomErr where
  | hfCollectionError (msg : String)
  | hfFileError (msg : String)
  | hfRepoError (msg : String)
deriving DecidableEq

/-- Python `str(e)` for a domain error (`RuntimeError` subclasses whose
string is their message). -/
def domErrStr : DomErr → String
  | DomErr.hfCollectionError m => m
  | DomErr.hfFileError m => m
  | DomErr.hfRepoError m => m

/-- Observable result of one backend wrapper function: how many times the
underlying hub API endpoints were invoked in total, and either a returned
value or a raised domain error. -/
structure CallRes (α : Type) where
  apiCalls : Nat
  result : Except DomErr α

/-- Observable result of a backend function that never raises: the number
of underlying API invocations and the returned value. -/
structure CallOut (α : Type) where
  apiCalls : Nat
  value : α

/-- A hub collection item as returned by the hub client
(`huggingface_hub` `CollectionItem`): fields read by `getattr` with
defaults, `note` may be `None`. -/
structure HubItem where
  item_id : String
  item_type : String
  note : Option String
  position : Nat
deriving DecidableEq

/-- A hub collection object as returned by the hub client: `title`,
`description`, `owner`, `is_private` and `items` may be absent or `None`
(read via `or`/`getattr` with defaults in the source). -/
structure HubCollection where
  slug : String
  title : Option String
  description : Option String
  owner : Option String
  is_private : Option Bool
  items : Option (List HubItem)
deriving DecidableEq

/-- `CollectionItemInfo` dataclass (`hf_collections.py`). -/
structure CollectionItemInfo where
  item_id : String
  item_type : String
  note : String
  position : Nat
deriving DecidableEq

/-- `CollectionInfo` dataclass (`hf_collections.py`). -/
structure CollectionInfo where
  slug : String
  title : String
  description : String
  owner : String
  is_private : Bool
  items : List CollectionItemInfo
  url : String
deriving DecidableEq

/-- The per-item translation loop shared by `list_my_collections` and
`get_collection`: `getattr(it, …, "")`, `… or ""` and `getattr(it, …, 0)`. -/
def itemOfHub (it : HubItem) : CollectionItemInfo :=
  ⟨it.item_id, it.item_type, it.note.getD "", it.position⟩

/-- The per-collection translation of `list_my_collections`
(`hf_collections.py` lines 31-57): defaults `""`/`owner`/`False`/`[]` and
the collection URL. -/
def collectionOfHub (owner : String) (c : HubCollection) : CollectionInfo :=
  ⟨c.slug, c.title.getD "", c.description.getD "", c.owner.getD owner,
    c.is_private.getD false, (c.items.getD []).map itemOfHub,
    "https://huggingface.co/collections/" ++ c.slug⟩

/-- Embedding of `list_my_collections` (`hf_collections.py` lines 31-57):
the single `api.list_collections` call, modelled by the oracle `api`, is
made directly — not through `with_retry` — and any exception it raises is
wrapped into `HFCollectionError`. -/
def list_my_collections (api : Nat → Res (List HubCollection)) (owner : String) :
    CallRes (List CollectionInfo) :=
  match api 0 with
  | Res.ok cs => ⟨1, Except.ok (cs.map (collectionOfHub owner))⟩
  | Res.err e => ⟨1, Except.error (DomErr.hfCollectionError
      ("Failed to list collections: " ++ excStr e))⟩

/-- Embedding of `get_collection` (`hf_collections.py` lines 60-82): one
direct `api.get_collection` call; on success the hub object is translated
(owner defaulting to `""` here), on failure `HFCollectionError` is
raised. -/
def get_collection (api : Nat → Res HubCollection) : CallRes CollectionInfo :=
  match api 0 with
  | Res.ok c => ⟨1, Except.ok (collectionOfHub "" c)⟩
  | Res.err e => ⟨1, Except.error (DomErr.hfCollectionError
      ("Failed to get collection: " ++ excStr e))⟩

/-- Embedding of `create_collection` (`hf_collections.py` lines 85-109):
one direct `api.create_collection` call; on success a `CollectionInfo`
with `title = c.title or title`, the given `description`/`private` and no
items. -/
def create_collection (api : Nat → Res HubCollection)
    (title description : String) (priv : Bool) : CallRes CollectionInfo :=
  match api 0 with
  | Res.ok c => ⟨1, Except.ok ⟨c.slug, c.title.getD title, description,
      c.owner.getD "", priv, [], "https://huggingface.co/collections/" ++ c.slug⟩⟩
  | Res.err e => ⟨1, Except.error (DomErr.hfCollectionError
      ("Failed to create collection: " ++ excStr e))⟩

/-- Embedding of `delete_collection` (`hf_collections.py` lines 112-118):
one direct `api.delete_collection` call. -/
def delete_collection (api : Nat → Res Unit) : CallRes Unit :=
  match api 0 with
  | Res.ok _ => ⟨1, Except.ok ()⟩
  | Res.err e => ⟨1, Except.error (DomErr.hfCollectionError
      ("Failed to delete collection: " ++ excStr e))⟩

/-- Embedding of `update_collection_metadata` (`hf_collections.py` lines
158-177): one direct `api.update_collection_metadata` call. -/
def update_collection_metadata (api : Nat → Res Unit) : CallRes Unit :=
  match api 0 with
  | Res.ok _ => ⟨1, Except.ok ()⟩
  | Res.err e => ⟨1, Except.error (DomErr.hfCollectionError
      ("Failed to update collection: " ++ excStr e))⟩

/-- Embedding of `add_collection_item` (`hf_collections.py` lines
121-141): a direct `api.add_collection_item` call (oracle `apiAdd`),
then — still inside the same `try` — a call of `get_collection` on the
returned slug (oracle `apiGet`); an `HFCollectionError` raised by the
inner `get_collection` is caught by the outer `except Exception` and
re-wrapped. -/
def add_collection_item (apiAdd : Nat → Res HubCollection)
    (apiGet : Nat → Res HubCollection) : CallRes CollectionInfo :=
  match apiAdd 0 with
  | Res.err e => ⟨1, Except.error (DomErr.hfCollectionError
      ("Failed to add item: " ++ excStr e))⟩
  | Res.ok _ =>
      match get_collection apiGet with
      | ⟨n, Except.ok info⟩ => ⟨1 + n, Except.ok info⟩
      | ⟨n, Except.error de⟩ => ⟨1 + n, Except.error (DomErr.hfCollectionError
          ("Failed to add item: " ++ domErrStr de))⟩

/-- Embedding of `remove_collection_item` (`hf_collections.py` lines
144-155): a direct `api.delete_collection_item` call, then
`get_collection`, with the same re-wrapping as `add_collection_item`. -/
def remove_collection_item (apiDel : Nat → Res HubCollection)
    (apiGet : Nat → Res HubCollection) : CallRes CollectionInfo :=
  match apiDel 0 with
  | Res.err e => ⟨1, Except.error (DomErr.hfCollectionError
      ("Failed to remove item: " ++ excStr e))⟩
  | Res.ok _ =>
      match get_collection apiGet with
      | ⟨n, Except.ok info⟩ => ⟨1 + n, Except.ok info⟩
      | ⟨n, Except.error de⟩ => ⟨1 + n, Except.error (DomErr.hfCollectionError
          ("Failed to remove item: " ++ domErrStr de))⟩

/-- The dict returned by `api.whoami()`, as read by `hf_auth.py`:
`info.get(…)` lookups may miss, orgs are dicts whose `"name"` lookup may
miss. -/
structure WhoamiDict where
  name : Option String
  fullname : Option String
  email : Option String
  avatarUrl : Option String
  orgs : Option (List (Option String))
deriving DecidableEq

/-- `UserInfo` dataclass (`hf_auth.py`). -/
structure UserInfo where
  username : String
  fullname : String
  email : String
  avatar_url : String
  orgs : List String
deriving DecidableEq

/-- Embedding of `whoami` (`hf_auth.py` lines 66-80): one direct
`api.whoami()` call — not through `with_retry` — and a bare
`except Exception` that turns every failure into the normal return value
`None`. -/
def whoami (api : Nat → Res WhoamiDict) : CallOut (Option UserInfo) :=
  match api 0 with
  | Res.ok info => ⟨1, some ⟨info.name.getD "", info.fullname.getD "",
      info.email.getD "", info.avatarUrl.getD "",
      (info.orgs.getD []).map (fun o => o.getD "")⟩⟩
  | Res.err _ => ⟨1, none⟩

/-- Embedding of `get_cached_token` (`hf_auth.py` lines 57-63): the
argument is the outcome of `huggingface_hub.utils.get_token()` (which may
raise, or return `None` or a token); every failure, and a missing token,
becomes `""`. -/
def get_cached_token (tok : Res (Option String)) : String :=
  match tok with
  | Res.ok t => t.getD ""
  | Res.err _ => ""

/-- `str(TypeError)` produced by Python 3 for `raise None`. -/
def raiseNoneMsg : String := "exceptions must derive from BaseException"

/-- Embedding of `get_file_content` (`hf_files.py` lines 144-167): the
`api.hf_hub_download` call goes through `with_retry` with the default
`retries=3, delay=1.0`; the oracle `api` yields the downloaded file's
text (the local tempfile write/read is collapsed into the oracle).  Any
exception escaping `with_retry` is wrapped into `HFFileError`. -/
def get_file_content (api : Nat → Res String) : CallRes String :=
  match with_retry api 3 1 with
  | ⟨n, _, Outcome.ok content⟩ => ⟨n, Except.ok content⟩
  | ⟨n, _, Outcome.raised e⟩ => ⟨n, Except.error (DomErr.hfFileError
      ("Failed to get file content: " ++ excStr e))⟩
  | ⟨n, _, Outcome.raiseNoneTypeError⟩ => ⟨n, Except.error (DomErr.hfFileError
      ("Failed to get file content: " ++ raiseNoneMsg))⟩

/-- Embedding of `get_readme` (`hf_model_card.py` lines 250-256): calls
`get_file_content` for `README.md` and catches `HFFileError`, returning
the normal value `""` in its place. -/
def get_readme (api : Nat → Res String) : CallRes String :=
  match get_file_content api with
  | ⟨n, Except.ok content⟩ => ⟨n, Except.ok content⟩
  | ⟨n, Except.error (DomErr.hfFileError _)⟩ => ⟨n, Except.ok ""⟩
  | ⟨n, Except.error de⟩ => ⟨n, Except.error de⟩

/-- Embedding of `delete_repo` (`hf_repos.py` lines 104-109): the
`api.delete_repo` call goes through `with_retry` with default
configuration; any escaping exception is wrapped into `HFRepoError`. -/
def delete_repo (api : Nat → Res Unit) : CallRes Unit :=
  match with_retry api 3 1 with
  | ⟨n, _, Outcome.ok _⟩ => ⟨n, Except.ok ()⟩
  | ⟨n, _, Outcome.raised e⟩ => ⟨n, Except.error (DomErr.hfRepoError
      ("Failed to delete repo: " ++ excStr e))⟩
  | ⟨n, _, Outcome.raiseNoneTypeError⟩ => ⟨n, Except.error (DomErr.hfRepoError
      ("Failed to delete repo: " ++ raiseNoneMsg))⟩

/-- The constantly-failing `api.list_collections` oracle raising an
HTTP 503 failure on every invocation. -/
def api503collections : Nat → Res (List HubCollection) :=
  fun _ => Res.err (Exc.hfHubHTTPError 0 (some 503))

/-- The constantly-failing `api.whoami` oracle raising an HTTP 503
failure on every invocation. -/
def api503whoami : Nat → Res WhoamiDict :=
  fun _ => Res.err (Exc.hfHubHTTPError 0 (some 503))

/-- A constantly-failing unit-returning endpoint oracle (503). -/
def api503unit : Nat → Res Unit :=
  fun _ => Res.err (Exc.hfHubHTTPError 0 (some 503))

/-- A constantly-failing collection-returning endpoint oracle (503). -/
def api503collection : Nat → Res HubCollection :=
  fun _ => Res.err (Exc.hfHubHTTPError 0 (some 503))

/-- A constantly-failing download oracle (503). -/
def api503download : Nat → Res String :=
  fun _ => Res.err (Exc.hfHubHTTPError 0 (some 503))

/-- An operation raising an HTTP 503 failure on every invocation. -/
def fail503 : Nat → Res Nat := fun _ => Res.err (Exc.hfHubHTTPError 0 (some 503))

/-- An operation raising an HTTP 404 failure on every invocation. -/
def fail404 : Nat → Res Nat := fun _ => Res.err (Exc.hfHubHTTPError 0 (some 404))

/-- Unfolding lemma: the loop with no remaining iterations executes the
trailing `raise last_err`. -/
lemma retryLoop_zero {α : Type} (fn : Nat → Res α) (retriesN : Nat) (d : ℚ)
    (attempt : Nat) (lastErr : Option Exc) :
    retryLoop fn retriesN d 0 attempt lastErr = ⟨0, [], exhaustOutcome lastErr⟩ := rfl

/-- A retryable exception is caught by the `except` clause of `with_retry`:
`_is_retryable` returns `true` only for transport errors and
`HfHubHTTPError`, both of which the clause matches. -/
lemma retryable_isCaught (e : Exc) (h : _is_retryable e = true) : isCaught e = true := by
  cases e <;> simp_all [_is_retryable, isTransportError, isCaught]

/-- Unfolding one loop iteration of `with_retry` on a retryable failure:
the operation is invoked once more, the outcome is that of the remaining
iterations, and a sleep of `delay * (attempt + 1)` is inserted exactly
when `attempt < retries - 1`. -/
lemma retryLoop_succ_retryable {α : Type} (fn : Nat → Res α) (retriesN : Nat) (d : ℚ)
    (r attempt : Nat) (lastErr : Option Exc) (e : Exc)
    (he : fn attempt = Res.err e) (hre : _is_retryable e = true) :
    (retryLoop fn retriesN d (r + 1) attempt lastErr).calls
        = (retryLoop fn retriesN d r (attempt + 1) (some e)).calls + 1 ∧
    (retryLoop fn retriesN d (r + 1) attempt lastErr).outcome
        = (retryLoop fn retriesN d r (attempt + 1) (some e)).outcome ∧
    (retryLoop fn retriesN d (r + 1) attempt lastErr).sleeps
        = (if attempt < retriesN - 1
            then d * ((attempt : ℚ) + 1) :: (retryLoop fn retriesN d r (attempt + 1) (some e)).sleeps
            else (retryLoop fn retriesN d r (attempt + 1) (some e)).sleeps) := by
  have hc : isCaught e = true := retryable_isCaught e hre
  simp only [retryLoop, he, hc, hre, if_true]
  split <;> simp

/-- If the operation raises a retryable failure on every invocation, the
loop performs exactly one invocation per remaining iteration and finally
raises the failure of the last invocation. -/
lemma retryLoop_allFail {α : Type} (fn : Nat → Res α) (retriesN : Nat) (d : ℚ)
    (hfail : ∀ k, ∃ e, fn k = Res.err e ∧ _is_retryable e = true) :
    ∀ remaining attempt lastErr, 0 < remaining →
      (retryLoop fn retriesN d remaining attempt lastErr).calls = remaining ∧
      ∃ e, fn (attempt + remaining - 1) = Res.err e ∧
        (retryLoop fn retriesN d remaining attempt lastErr).outcome = Outcome.raised e := by
  intro remaining
  induction remaining with
  | zero => exact fun attempt lastErr h => absurd h (lt_irrefl 0)
  | succ r ih =>
    intro attempt lastErr _
    obtain ⟨e, he, hre⟩ := hfail attempt
    obtain ⟨hcalls, houtc, _⟩ := retryLoop_succ_retryable fn retriesN d r attempt lastErr e he hre
    cases r with
    | zero =>
      refine ⟨by rw [hcalls, retryLoop_zero], e, by simpa using he, by rw [houtc, retryLoop_zero]; rfl⟩
    | succ r' =>
      obtain ⟨ihc, e', he', iho⟩ := ih (attempt + 1) (some e) (Nat.succ_pos r')
      refine ⟨by rw [hcalls, ihc], e', ?_, by rw [houtc, iho]⟩
      have hidx : attempt + 1 + (r' + 1) - 1 = attempt + (r' + 1 + 1) - 1 := by omega
      rw [← hidx]
      exact he'

/-- Under an always-retryable-failing operation, the sleeps recorded by
the loop starting at `attempt` (with the invariant
`attempt + remaining = retries`) are `delay * k` for
`k = attempt + 1, …, retries - 1`. -/
lemma retryLoop_allFail_sleeps {α : Type} (fn : Nat → Res α) (retriesN : Nat) (d : ℚ)
    (hfail : ∀ k, ∃ e, fn k = Res.err e ∧ _is_retryable e = true) :
    ∀ remaining attempt lastErr, attempt + remaining = retriesN →
      (retryLoop fn retriesN d remaining attempt lastErr).sleeps
        = (List.range' (attempt + 1) (remaining - 1)).map (fun k : Nat => d * (k : ℚ)) := by
  intro remaining
  induction remaining with
  | zero => intro attempt lastErr _; rfl
  | succ r ih =>
    intro attempt lastErr hinv
    obtain ⟨e, he, hre⟩ := hfail attempt
    obtain ⟨_, _, hsl⟩ := retryLoop_succ_retryable fn retriesN d r attempt lastErr e he hre
    rw [hsl]
    cases r with
    | zero =>
      have hcond : ¬ (attempt < retriesN - 1) := by omega
      rw [if_neg hcond]
      rfl
    | succ r' =>
      have hcond : attempt < retriesN - 1 := by omega
      have hrec := ih (attempt + 1) (some e) (by omega)
      rw [if_pos hcond, hrec]
      have hcast : d * ((attempt : ℚ) + 1) = d * (((attempt + 1 : Nat) : ℚ)) := by
        push_cast
        ring
      rw [hcast, Nat.succ_sub_one, Nat.succ_sub_one, List.range'_succ, List.map_cons]

/-- The map of `delay * k` over `range' s m` is strictly increasing for
positive `delay`. -/
lemma chain_lt_range'_mul (d : ℚ) (hd : 0 < d) (s m : Nat) :
    ((List.range' s m).map (fun k : Nat => d * (k : ℚ))).Chain' (fun a b => a < b) := by
  induction m generalizing s with
  | zero => simp
  | succ m ih =>
    rw [List.range'_succ, List.map_cons]
    cases m with
    | zero => simp
    | succ m' =>
      rw [List.range'_succ, List.map_cons]
      refine List.chain'_cons.mpr ⟨?_, ?_⟩
      · have hlt : (s : ℚ) < ((s + 1 : Nat) : ℚ) := by
          push_cast
          linarith
        exact mul_lt_mul_of_pos_left hlt hd
      · have hch := ih (s + 1)
        rw [List.range'_succ, List.map_cons] at hch
        exact hch

/-- With the default configuration `retries=3, delay=1.0`, `with_retry`
on an operation that raises the same exception on every invocation
always ends by raising that exception, whatever its classification. -/
lemma with_retry3_const_err {α : Type} (e : Exc) :
    (with_retry (fun _ => Res.err e : Nat → Res α) 3 1).outcome = Outcome.raised e := by
  rw [show with_retry (fun _ => Res.err e : Nat → Res α) 3 1
      = retryLoop (fun _ => Res.err e) 3 1 3 0 none from rfl]
  by_cases hr : _is_retryable e
  · have hc := retryable_isCaught e hr
    norm_num [retryLoop, hr, hc, exhaustOutcome]
  · by_cases hc : isCaught e
    · norm_num [retryLoop, hr, hc]
    · norm_num [retryLoop, hr, hc]

/-- Claim C1: for every operation that raises a retryable failure on every
invocation, `with_retry` with `retries = n ≥ 1` invokes the operation
exactly `n` times and then raises the failure raised by the last (`n`-th)
invocation. -/
theorem C1_retry_exhaustion {α : Type} (fn : Nat → Res α) (n : Int) (d : ℚ)
    (hn : 1 ≤ n)
    (hfail : ∀ k, ∃ e, fn k = Res.err e ∧ _is_retryable e = true) :
    ((with_retry fn n d).calls : Int) = n ∧
    ∃ e, fn (n.toNat - 1) = Res.err e ∧
      (with_retry fn n d).outcome = Outcome.raised e := by
  have hpos : 0 < n.toNat := by omega
  obtain ⟨hc, e, he, ho⟩ := retryLoop_allFail fn n.toNat d hfail n.toNat 0 none hpos
  refine ⟨?_, e, by simpa using he, ho⟩
  rw [show (with_retry fn n d).calls = (retryLoop fn n.toNat d n.toNat 0 none).calls from rfl,
    hc]
  omega

/-- Witness for C1 at a concrete input: a connection error on every
invocation, `retries = 2`. -/
theorem C1_retry_exhaustion_witness :
    (1 ≤ (2 : Int)) ∧
    (((with_retry (fun k => Res.err (Exc.connectError k) : Nat → Res Nat) 2 1).calls : Int) = 2 ∧
     ∃ e, (fun k => Res.err (Exc.connectError k) : Nat → Res Nat) ((2 : Int).toNat - 1)
            = Res.err e ∧
       (with_retry (fun k => Res.err (Exc.connectError k) : Nat → Res Nat) 2 1).outcome
            = Outcome.raised e) :=
  ⟨by decide,
   C1_retry_exhaustion (fun k => Res.err (Exc.connectError k)) 2 1 (by decide)
     (fun k => ⟨Exc.connectError k, rfl, rfl⟩)⟩

/-- Claim C3: under `retries = 3`, an `HfHubHTTPError`-style failure with
status 503 is classified retryable and invoked exactly 3 times before
propagating, while status 404 is classified non-retryable and invoked
exactly once. -/
theorem C3_status_classification (d : ℚ) :
    _is_retryable (Exc.hfHubHTTPError 0 (some 503)) = true ∧
    _is_retryable (Exc.hfHubHTTPError 0 (some 404)) = false ∧
    (with_retry fail503 3 d).calls = 3 ∧
    (with_retry fail503 3 d).outcome = Outcome.raised (Exc.hfHubHTTPError 0 (some 503)) ∧
    (with_retry fail404 3 d).calls = 1 ∧
    (with_retry fail404 3 d).outcome = Outcome.raised (Exc.hfHubHTTPError 0 (some 404)) :=
  ⟨rfl, rfl, rfl, rfl, rfl, rfl⟩

/-- Claim C4: under an always-retryable-failing operation and positive
base delay, the sleep after the k-th failed attempt is `delay * k`
(`k = 1, …, retries - 1`), so the waits are strictly increasing, hence
non-decreasing. -/
theorem C4_backoff_monotone {α : Type} (fn : Nat → Res α) (n : Int) (d : ℚ)
    (hd : 0 < d)
    (hfail : ∀ k, ∃ e, fn k = Res.err e ∧ _is_retryable e = true) :
    (with_retry fn n d).sleeps
        = (List.range' 1 (n.toNat - 1)).map (fun k : Nat => d * (k : ℚ)) ∧
    (with_retry fn n d).sleeps.Chain' (fun a b => a < b) ∧
    (with_retry fn n d).sleeps.Chain' (fun a b => a ≤ b) := by
  have hs := retryLoop_allFail_sleeps fn n.toNat d hfail n.toNat 0 none (by omega)
  have hw : (with_retry fn n d).sleeps = (retryLoop fn n.toNat d n.toNat 0 none).sleeps := rfl
  rw [hw, hs]
  refine ⟨by norm_num, ?_, ?_⟩
  · exact chain_lt_range'_mul d hd 1 (n.toNat - 1)
  · exact List.Chain'.imp (fun a b h => le_of_lt h) (chain_lt_range'_mul d hd 1 (n.toNat - 1))

/-- Witness for C4 at a concrete input: connection errors, `retries = 3`,
`delay = 1`. -/
theorem C4_backoff_monotone_witness :
    (0 < (1 : ℚ)) ∧
    ((with_retry (fun k => Res.err (Exc.connectError k) : Nat → Res Nat) 3 1).sleeps
        = (List.range' 1 ((3 : Int).toNat - 1)).map (fun k : Nat => 1 * (k : ℚ)) ∧
     (with_retry (fun k => Res.err (Exc.connectError k) : Nat → Res Nat) 3 1).sleeps.Chain'
        (fun a b => a < b) ∧
     (with_retry (fun k => Res.err (Exc.connectError k) : Nat → Res Nat) 3 1).sleeps.Chain'
        (fun a b => a ≤ b)) :=
  ⟨by norm_num,
   C4_backoff_monotone (fun k => Res.err (Exc.connectError k)) 3 1 (by norm_num)
     (fun k => ⟨Exc.connectError k, rfl, rfl⟩)⟩

/-- Claim C5: an operation that raises a non-retryable failure on its
first call is invoked exactly once; no sleep happens and that same
failure propagates. -/
theorem C5_nonretryable_shortcircuit {α : Type} (fn : Nat → Res α) (e : Exc) (n : Int) (d : ℚ)
    (hn : 1 ≤ n) (h0 : fn 0 = Res.err e) (hnr : _is_retryable e = false) :
    (with_retry fn n d).calls = 1 ∧ (with_retry fn n d).sleeps = [] ∧
    (with_retry fn n d).outcome = Outcome.raised e := by
  obtain ⟨m, hm⟩ : ∃ m, n.toNat = m + 1 := ⟨n.toNat - 1, by omega⟩
  rw [show with_retry fn n d = retryLoop fn n.toNat d n.toNat 0 none from rfl, hm]
  by_cases hce : isCaught e
  · simp [retryLoop, h0, hnr, hce]
  · simp [retryLoop, h0, hnr, hce]

/-- Witness for C5 at a concrete input: an application-level exception
(not caught by the retry clause), `retries = 3`. -/
theorem C5_nonretryable_shortcircuit_witness :
    (1 ≤ (3 : Int)) ∧
    ((fun _ => Res.err (Exc.appExc 0 "boom") : Nat → Res Nat) 0
        = Res.err (Exc.appExc 0 "boom")) ∧
    (_is_retryable (Exc.appExc 0 "boom") = false) ∧
    ((with_retry (fun _ => Res.err (Exc.appExc 0 "boom") : Nat → Res Nat) 3 1).calls = 1 ∧
     (with_retry (fun _ => Res.err (Exc.appExc 0 "boom") : Nat → Res Nat) 3 1).sleeps = [] ∧
     (with_retry (fun _ => Res.err (Exc.appExc 0 "boom") : Nat → Res Nat) 3 1).outcome
        = Outcome.raised (Exc.appExc 0 "boom")) :=
  ⟨by decide, rfl, rfl,
   C5_nonretryable_shortcircuit (fun _ => Res.err (Exc.appExc 0 "boom"))
     (Exc.appExc 0 "boom") 3 1 (by decide) rfl rfl⟩

/-- Claim C6: an operation that raises retryable failures on its first
two invocations and returns `v` on its third is invoked exactly 3 times
by `with_retry(fn, retries=3)`, which returns `v` without raising. -/
theorem C6_early_success {α : Type} (fn : Nat → Res α) (e0 e1 : Exc) (v : α) (d : ℚ)
    (h0 : fn 0 = Res.err e0) (hr0 : _is_retryable e0 = true)
    (h1 : fn 1 = Res.err e1) (hr1 : _is_retryable e1 = true)
    (h2 : fn 2 = Res.ok v) :
    (with_retry fn 3 d).calls = 3 ∧ (with_retry fn 3 d).outcome = Outcome.ok v := by
  have hc0 := retryable_isCaught e0 hr0
  have hc1 := retryable_isCaught e1 hr1
  rw [show with_retry fn 3 d = retryLoop fn 3 d 3 0 none from rfl]
  norm_num [retryLoop, h0, h1, h2, hr0, hr1, hc0, hc1]

/-- Witness for C6 at a concrete input: a connection error, then a
timeout, then success with value 42. -/
theorem C6_early_success_witness :
    ((fun k => if k = 0 then Res.err (Exc.connectError 0)
       else if k = 1 then Res.err (Exc.timeoutException 1)
       else Res.ok 42 : Nat → Res Nat) 0 = Res.err (Exc.connectError 0)) ∧
    (_is_retryable (Exc.connectError 0) = true) ∧
    ((fun k => if k = 0 then Res.err (Exc.connectError 0)
       else if k = 1 then Res.err (Exc.timeoutException 1)
       else Res.ok 42 : Nat → Res Nat) 1 = Res.err (Exc.timeoutException 1)) ∧
    (_is_retryable (Exc.timeoutException 1) = true) ∧
    ((fun k => if k = 0 then Res.err (Exc.connectError 0)
       else if k = 1 then Res.err (Exc.timeoutException 1)
       else Res.ok 42 : Nat → Res Nat) 2 = Res.ok 42) ∧
    ((with_retry (fun k => if k = 0 then Res.err (Exc.connectError 0)
       else if k = 1 then Res.err (Exc.timeoutException 1)
       else Res.ok 42 : Nat → Res Nat) 3 1).calls = 3 ∧
     (with_retry (fun k => if k = 0 then Res.err (Exc.connectError 0)
       else if k = 1 then Res.err (Exc.timeoutException 1)
       else Res.ok 42 : Nat → Res Nat) 3 1).outcome = Outcome.ok 42) :=
  ⟨rfl, rfl, rfl, rfl, rfl,
   C6_early_success _ (Exc.connectError 0) (Exc.timeoutException 1) 42 1
     rfl rfl rfl rfl rfl⟩

/-- Claim C10: with `retries ≤ 0` the wrapped operation is never invoked
and the final `raise last_err` executes with `last_err` still `None`,
producing the `TypeError` of raising `None`. -/
theorem C10_nonpositive_retries {α : Type} (fn : Nat → Res α) (n : Int) (d : ℚ)
    (hn : n ≤ 0) :
    (with_retry fn n d).calls = 0 ∧ (with_retry fn n d).sleeps = [] ∧
    (with_retry fn n d).outcome = Outcome.raiseNoneTypeError := by
  have h0 : n.toNat = 0 := Int.toNat_of_nonpos hn
  rw [show with_retry fn n d = retryLoop fn n.toNat d n.toNat 0 none from rfl, h0]
  exact ⟨rfl, rfl, rfl⟩

/-- Witness for C10 at a concrete input: `retries = -2`. -/
theorem C10_nonpositive_retries_witness :
    ((-2 : Int) ≤ 0) ∧
    ((with_retry (fun _ => Res.ok 7 : Nat → Res Nat) (-2) 1).calls = 0 ∧
     (with_retry (fun _ => Res.ok 7 : Nat → Res Nat) (-2) 1).sleeps = [] ∧
     (with_retry (fun _ => Res.ok 7 : Nat → Res Nat) (-2) 1).outcome
        = Outcome.raiseNoneTypeError) :=
  ⟨by decide, C10_nonpositive_retries (fun _ => Res.ok 7) (-2) 1 (by decide)⟩

/-- Claim C7: `ApiWorker.run` emits at most one outcome signal, never
both a `finished` and an `error` signal, and emits nothing at all when
the cancellation flag is set at the moment `run` checks it — whatever
the wrapped operation did. -/
theorem C7_worker_single_outcome {α : Type} (r : Res α) (c : Bool) :
    (ApiWorker.run r c).length ≤ 1 ∧
    ApiWorker.run r true = [] ∧
    ¬ ((∃ v, WSignal.finished v ∈ ApiWorker.run r c) ∧
       (∃ m, WSignal.error m ∈ ApiWorker.run r c)) := by
  cases r <;> cases c <;> simp [ApiWorker.run]

/-- Claim C8: every exception raised by the wrapped operation is caught
by the uncancelled worker, stringified with `str()` and emitted on the
`error` signal; `run` emits signals instead of ever re-raising (its
codomain in the embedding — a signal list — reflects that the bare
`except Exception` clause leaves no propagation path). -/
theorem C8_worker_error_boundary {α : Type} (e : Exc) :
    ApiWorker.run (Res.err e : Res α) false = [WSignal.error (excStr e)] := rfl

/-- Counterexample to Claim C2 as stated: on an `api.list_collections`
endpoint (and an `api.whoami` endpoint) that raises a retryable HTTP 503
failure on every invocation, `with_retry` under the backend's
configuration performs 3 invocations, yet `list_my_collections` and
`whoami` perform exactly 1 — their API calls are not routed through
`with_retry`. -/
theorem C2_counterexample :
    (list_my_collections api503collections "me").apiCalls = 1 ∧
    (whoami api503whoami).apiCalls = 1 ∧
    _is_retryable (Exc.hfHubHTTPError 0 (some 503)) = true ∧
    (with_retry api503collections 3 1).calls = 3 ∧
    (1 : Nat) ≠ 3 :=
  ⟨rfl, rfl, rfl, rfl, by decide⟩

/-- Claim C2 amended: the file and repository operations route their
remote calls through `with_retry` (3 invocations on a persistent 503),
but the collection CRUD functions and `whoami` call the hub API directly,
exactly once per underlying endpoint invocation, wrapping failures in
`HFCollectionError` (`whoami` returning `None`). -/
theorem C2_amended_retry_coverage :
    (get_file_content api503download).apiCalls = 3 ∧
    (delete_repo api503unit).apiCalls = 3 ∧
    (list_my_collections api503collections "me").apiCalls = 1 ∧
    (list_my_collections api503collections "me").result
        = Except.error (DomErr.hfCollectionError
            ("Failed to list collections: " ++ excStr (Exc.hfHubHTTPError 0 (some 503)))) ∧
    (get_collection api503collection).apiCalls = 1 ∧
    (create_collection api503collection "t" "d" false).apiCalls = 1 ∧
    (delete_collection api503unit).apiCalls = 1 ∧
    (update_collection_metadata api503unit).apiCalls = 1 ∧
    (add_collection_item api503collection api503collection).apiCalls = 1 ∧
    (remove_collection_item api503collection api503collection).apiCalls = 1 ∧
    (whoami api503whoami).apiCalls = 1 ∧
    (whoami api503whoami).value = none :=
  ⟨rfl, rfl, rfl, rfl, rfl, rfl, rfl, rfl, rfl, rfl, rfl, rfl⟩

/-- Counterexample to Claim C9 as stated: `get_cached_token`, `whoami`
and `get_readme` do catch failures and return normal values in their
place — at these concrete failing inputs the failures vanish into `""`,
`None` and `""`. -/
theorem C9_counterexample :
    get_cached_token (Res.err (Exc.appExc 0 "token lookup failed")) = "" ∧
    (whoami (fun _ => Res.err (Exc.appExc 0 "offline"))).value = none ∧
    (get_readme (fun _ => Res.err (Exc.hfHubHTTPError 0 (some 404)))).result
        = Except.ok "" :=
  ⟨rfl, rfl, rfl⟩

/-- Claim C9 amended: backend operations such as `list_my_collections`
surface every underlying failure as a domain error, but `get_readme`,
`whoami` and `get_cached_token` are deliberate exceptions: they catch
the failure and return the fallback values `""`, `None` and `""`. -/
theorem C9_amended_swallow_boundary (e : Exc) :
    get_cached_token (Res.err e) = "" ∧
    (whoami (fun _ => Res.err e)).value = none ∧
    (get_readme (fun _ => Res.err e)).result = Except.ok "" ∧
    (list_my_collections (fun _ => Res.err e) "me").result
        = Except.error (DomErr.hfCollectionError
            ("Failed to list collections: " ++ excStr e)) := by
  refine ⟨rfl, rfl, ?_, rfl⟩
  have ho := with_retry3_const_err (α := String) e
  rcases hw : with_retry (fun _ => Res.err e : Nat → Res String) 3 1 with ⟨n, s, o⟩
  rw [hw] at ho
  simp only at ho
  subst ho
  simp [get_readme, get_file_content, hw]

end HFClient
